import Mathlib

/-!
Shallow embedding of the solvedata/migrate KSQL driver.

The driver (package `ksql`) tracks a migration version on top of a KSQL
engine: version changes are appended as events to a `migrations` stream and
the current version is read back from the derived `schema_migrations`
table.  Two revisions of the driver exist in the repository; the final
revision is embedded in the `Ksql` namespace and the earlier revision's
`Version` method (the only place the two differ in a way the properties
below depend on) in the `Early` namespace.

The HTTP transport (`http.Client.Do`, `http.NewRequest`) and the JSON
decoder (`json.Unmarshal`) are external libraries; they are modelled as an
oracle `Engine` with a `post` function (one POST request: either a
transport error or a `Response`) and an `unmarshal` function (either a
decoded `MigrationResult` or a decode failure).  Every driver operation
additionally returns the list of POST requests it issued (`Trace`), so that
"issues no query" properties are statements about the operation itself.
Go panics (out-of-range index, failed type assertion) are the `crash`
outcome, distinct from an `error` return value.
-/

namespace SolveMigrate

/-- HTTP response as the driver sees it: the fields of Go's `http.Response`
that the source reads (`StatusCode`, `Status`, and the body bytes). -/
structure Response where
  statusCode : Nat
  status : String
  body : String
deriving DecidableEq

/-- Result of one POST request: a transport error (Go `err != nil`, covering
both `http.NewRequest` and `Client.Do` failures) or a response. -/
inductive HttpResult where
  | err (msg : String)
  | ok (resp : Response)
deriving DecidableEq

/-- One HTTP POST issued by the driver: target URL and request body. -/
structure Posted where
  url : String
  reqBody : String
deriving DecidableEq

/-- The list of POST requests an operation issued, in order. -/
abbrev Trace := List Posted

/-- Outcome of a Go call: normal return, error return (`err != nil`), or a
runtime panic (`crash`: index out of range, failed type assertion). -/
inductive GoResult (α : Type) where
  | ok (a : α)
  | err (msg : String)
  | crash (msg : String)
deriving DecidableEq

/-- A JSON column value as produced by `json.Unmarshal` into `interface{}`:
number, boolean, string or null.  Engine numbers are modelled as integers
(the driver only ever truncates them to `int`). -/
inductive JsonVal where
  | num (x : Int)
  | bool (b : Bool)
  | str (s : String)
  | null
deriving DecidableEq

/-- Source struct `MigrationRow`: the positional column values of one row. -/
structure MigrationRow where
  Columns : List JsonVal
deriving DecidableEq

/-- Source struct `MigrationResult`: one decoded response row. -/
structure MigrationResult where
  Row : MigrationRow
deriving DecidableEq

/-- Oracle for the external world: `post url body` is the outcome of one
HTTP POST, `unmarshal s` the outcome of `json.Unmarshal` of `s` into a
`MigrationResult` (`none` = decode error). -/
structure Engine where
  post : String → String → HttpResult
  unmarshal : String → Option MigrationResult

/-- Source struct `Ksql` (the driver state), with the fields the embedded
operations touch.  `Instance`, `Client` and `Config` are omitted: `Instance`
is never read, `Client` is the transport (modelled by `Engine`), and
`Config` is an empty struct. -/
structure Ksql where
  Url : String
  HttpUrl : String
  CurrentVersion : Int
  MigrationSequence : List String
  LastRunMigration : Option String
  IsDirty : Bool
  FirstRun : Bool
deriving DecidableEq

/-- Source constant `CreateMigrationStreamSQL` (final revision). -/
def CreateMigrationStreamSQL : String :=
  "CREATE STREAM migrations\n  (type VARCHAR,\n  current_version INT,\n  is_dirty BOOLEAN)\n  WITH (KAFKA_TOPIC = \x27ksql_migrations\x27,\n        VALUE_FORMAT=\x27JSON\x27,\n        KEY = \x27type\x27,\n        PARTITIONS = 1);"

/-- Source constant `CreateMigrationTableSQL` (final revision): the derived
table keeps `MAX(current_version)` per type over the non-dirty events. -/
def CreateMigrationTableSQL : String :=
  "CREATE TABLE schema_migrations\n  WITH (KAFKA_TOPIC = \x27ksql_schema_migrations\x27,\n        VALUE_FORMAT=\x27JSON\x27,\n        PARTITIONS = 1)\n  AS SELECT MAX(current_version) as current_version, type FROM migrations\n  WHERE NOT is_dirty\n  GROUP BY type;"

/-- Source constant `LatestSchemaMigrationSql` (final revision). -/
def LatestSchemaMigrationSql : String :=
  "SELECT current_version FROM schema_migrations WHERE type = \x27schema\x27 LIMIT 1;"

/-- Source constant `LatestSchemaRowTimeSQL` (earlier revision). -/
def LatestSchemaRowTimeSQL : String :=
  "SELECT * FROM schema_migrations WHERE type = \x27schema\x27 LIMIT 1;"

/-- Models `strings.Replace(query, "\n", " ", -1)`: every newline becomes a
space (single-character pattern, so a character map). -/
def replaceNewlines (s : String) : String :=
  String.mk (s.data.map (fun c => if c = '\n' then ' ' else c))

/-- The request envelope built in `doQuery`:
`{"ksql":"<query>","streamsProperties":{ "ksql.streams.auto.offset.reset": "earliest"}}`
with newlines in the query replaced by spaces. -/
def formatQuery (query : String) : String :=
  "\x7b\"ksql\":\"" ++ replaceNewlines query ++
    "\",\"streamsProperties\":\x7b \"ksql.streams.auto.offset.reset\": \"earliest\"\x7d\x7d"

/-- Source `doQuery`: serialize the statement into the envelope and POST it
to the given endpoint.  The trace records the one request issued. -/
def doQuery (e : Engine) (url query : String) : HttpResult × Trace :=
  (e.post url (formatQuery query), [⟨url, formatQuery query⟩])

/-- Source `runKsql`: POST to the `/ksql` (statement execution) endpoint. -/
def Ksql.runKsql (e : Engine) (s : Ksql) (query : String) : HttpResult × Trace :=
  doQuery e (s.HttpUrl ++ "/ksql") query

/-- Source `runQuery`: POST to the `/query` (read) endpoint. -/
def Ksql.runQuery (e : Engine) (s : Ksql) (query : String) : HttpResult × Trace :=
  doQuery e (s.HttpUrl ++ "/query") query

/-- Source `resposeBodyText` (sic): the response body as a string. -/
def resposeBodyText (resp : Response) : String := resp.body

/-- Models `strings.Trim(s, "\n")` on the character list: drop leading and
trailing newline characters. -/
def trimNewlines (l : List Char) : List Char :=
  ((l.dropWhile (fun c => c = '\n')).reverse.dropWhile (fun c => c = '\n')).reverse

/-- Models `strings.Split(s, "\n")` on the character list: split at every
newline; always returns at least one (possibly empty) piece. -/
def splitLines : List Char → List (List Char)
  | [] => [[]]
  | c :: rest =>
      let r := splitLines rest
      if c = '\n' then [] :: r
      else (c :: r.headD []) :: r.tail

/-- The first line of a body after trimming outer newlines: `lines[0]` in
`responseBodyMigrationResult`. -/
def firstLineOf (s : String) : String :=
  String.mk ((splitLines (trimNewlines s.data)).headD [])

/-- Source `responseBodyMigrationResult`: trim outer newlines, split into
lines, and `json.Unmarshal` the first line into a `MigrationResult`. -/
def responseBodyMigrationResult (e : Engine) (resp : Response) : Option MigrationResult :=
  e.unmarshal (firstLineOf (resposeBodyText resp))

/-- Models Go's `%v` formatting of a bool. -/
def govBool (b : Bool) : String := if b then "true" else "false"

/-- The INSERT statement built in `SetVersion` by
`fmt.Sprintf("INSERT INTO migrations VALUES ('schema', 'schema', %v, %v);", version, dirty)`. -/
def insertQuery (version : Int) (dirty : Bool) : String :=
  "INSERT INTO migrations VALUES (\x27schema\x27, \x27schema\x27, " ++ toString version ++
    ", " ++ govBool dirty ++ ");"

/-- Source `SetVersion` (final revision): no-op for `version < 0`; otherwise
append an event via the INSERT statement.  A transport error from the append
is swallowed (`return nil`) and the local mirror fields are then not
updated; on any response the mirror fields are updated.  Always returns a
nil error. -/
def Ksql.SetVersion (e : Engine) (s : Ksql) (version : Int) (dirty : Bool) :
    Ksql × GoResult Unit × Trace :=
  if 0 ≤ version then
    match Ksql.runKsql e s (insertQuery version dirty) with
    | (.err _, t) => (s, .ok (), t)
    | (.ok _, t) =>
        ({ s with CurrentVersion := version, IsDirty := dirty }, .ok (), t)
  else (s, .ok (), [])

/-- Source `getLatestMigration` (final revision): run the latest-version
point query, decode the first line, and take column 0 as the version.  The
dirty flag in the returned pair is the literal `false`.  A missing column 0
or a non-number column 0 is a Go panic (`crash`). -/
def Ksql.getLatestMigration (e : Engine) (s : Ksql) : GoResult (Int × Bool) × Trace :=
  match Ksql.runQuery e s LatestSchemaMigrationSql with
  | (.err m, t) => (.err m, t)
  | (.ok resp, t) =>
      match responseBodyMigrationResult e resp with
      | none => (.err "json unmarshal error", t)
      | some result =>
          match result.Row.Columns.head? with
          | none => (.crash "index out of range", t)
          | some (.num x) => (.ok (x, false), t)
          | some _ => (.crash "interface conversion", t)

/-- Source `Version` (final revision): on first run return `(-1, false)`
with no error and no query; otherwise run `getLatestMigration`, and if it
returns an error, swallow it and return `(-1, false)` with a nil error. -/
def Ksql.Version (e : Engine) (s : Ksql) : GoResult (Int × Bool) × Trace :=
  if s.FirstRun then (.ok (-1, false), [])
  else
    match Ksql.getLatestMigration e s with
    | (.err _, t) => (.ok (-1, false), t)
    | (.crash m, t) => (.crash m, t)
    | (.ok vd, t) => (.ok vd, t)

/-- Source `Run` (final revision): read the whole migration body (modelled
as an in-memory string, so the read cannot fail), record it in
`LastRunMigration` and `MigrationSequence`, then submit it as a statement.
A transport error is returned as-is; a response with `StatusCode != 200`
yields the error `"Unexpected response code of " ++ Status` (the body is
printed, not put into the error). -/
def Ksql.Run (e : Engine) (s : Ksql) (migration : String) : Ksql × GoResult Unit × Trace :=
  let s1 := { s with
    LastRunMigration := some migration,
    MigrationSequence := s.MigrationSequence ++ [migration] }
  match Ksql.runKsql e s1 migration with
  | (.err m, t) => (s1, .err m, t)
  | (.ok resp, t) =>
      if resp.statusCode ≠ 200 then
        (s1, .err ("Unexpected response code of " ++ resp.status), t)
      else (s1, .ok (), t)

/-- Source `Drop`: purely local reset; sets `CurrentVersion := -1`, clears
`LastRunMigration`, appends the `"DROP"` sentinel, issues no request. -/
def Ksql.Drop (s : Ksql) : Ksql × GoResult Unit × Trace :=
  ({ s with
      CurrentVersion := -1,
      LastRunMigration := none,
      MigrationSequence := s.MigrationSequence ++ ["DROP"] }, .ok (), [])

/-- Does the first list lead the second (pattern occurs at position 0)? -/
def leadsWith : List Char → List Char → Bool
  | [], _ => true
  | _ :: _, [] => false
  | a :: as, b :: bs => a == b && leadsWith as bs

/-- Does the pattern occur somewhere in the list? -/
def occursIn (pat : List Char) : List Char → Bool
  | [] => leadsWith pat []
  | b :: bs => leadsWith pat (b :: bs) || occursIn pat bs

/-- Models `strings.ToLower(s)`: lowercase character by character. -/
def strToLower (s : String) : String :=
  String.mk (s.data.map Char.toLower)

/-- Models `strings.Contains(s, pat)`. -/
def containsSubstring (s pat : String) : Bool :=
  occursIn pat.data s.data

/-- Source `ensureUrlConection` (sic): POST `LIST TOPICS;`; a transport
error means no connection; otherwise connected iff `resp.Status != "200"`
(Go status strings are `"200 OK"`, so any response passes). -/
def Ksql.ensureUrlConection (e : Engine) (s : Ksql) : Bool × Trace :=
  match Ksql.runKsql e s "LIST TOPICS;" with
  | (.err _, t) => (false, t)
  | (.ok resp, t) => (resp.status != "200", t)

/-- Source `ensureVersionTable` (final revision): `LIST TABLES;`, check the
lowercased body for the substring `schema_migrations`; if present set
`FirstRun := false` and stop; otherwise create the stream and then the
table.  Note the creation path does not touch `FirstRun`. -/
def Ksql.ensureVersionTable (e : Engine) (s : Ksql) : Ksql × GoResult Unit × Trace :=
  match Ksql.runKsql e s "LIST TABLES;" with
  | (.err m, t) => (s, .err m, t)
  | (.ok resp, t) =>
      let lowerCaseBody := strToLower (resposeBodyText resp)
      let tableExists := containsSubstring lowerCaseBody "schema_migrations"
      if tableExists then ({ s with FirstRun := false }, .ok (), t)
      else
        match Ksql.runKsql e s CreateMigrationStreamSQL with
        | (.err m, t2) => (s, .err m, t ++ t2)
        | (.ok _, t2) =>
            match Ksql.runKsql e s CreateMigrationTableSQL with
            | (.err m, t3) => (s, .err m, t ++ t2 ++ t3)
            | (.ok _, t3) => (s, .ok (), t ++ t2 ++ t3)

/-- Models `strings.Replace(s, pat, repl, 1)`: replace the first occurrence
of `pat` (used in `Open` to turn `ksql://` into `http://`). -/
def replaceFirst (s pat repl : String) : String :=
  match s.splitOn pat with
  | [] => s
  | [x] => x
  | x :: rest => x ++ repl ++ String.intercalate pat rest

/-- Source `Open` (final revision), as a method on the registered receiver
`s` (the zero-value `&Ksql{}` passed to `database.Register`).  Builds the
fresh driver `ks`, checks connectivity, then bootstraps.  The
cannot-connect error interpolates `s.HttpUrl` — the receiver's field, not
the fresh driver's (`ks.HttpUrl`); this is the source text, kept verbatim.
The environment-variable timeout parsing only configures the HTTP client
timeout and is absorbed into the `Engine` oracle. -/
def Ksql.Open (e : Engine) (s : Ksql) (url : String) : GoResult Ksql × Trace :=
  let httpUrl := replaceFirst url "ksql://" "http://"
  let ks : Ksql := {
    Url := url,
    HttpUrl := httpUrl,
    CurrentVersion := -1,
    MigrationSequence := [],
    LastRunMigration := none,
    IsDirty := false,
    FirstRun := true }
  match Ksql.ensureUrlConection e ks with
  | (hasConnection, t) =>
      if !hasConnection then
        (.err ("Cannot connect to KSQL at " ++ s.HttpUrl), t)
      else
        match Ksql.ensureVersionTable e ks with
        | (_, .err m, t2) => (.err m, t ++ t2)
        | (_, .crash m, t2) => (.crash m, t ++ t2)
        | (ks2, .ok _, t2) => (.ok ks2, t ++ t2)

/-- Models Go's `%v` formatting of an `interface{}` column value, used by
the earlier revision to splice the rowtime into a query. -/
def govFmt : JsonVal → String
  | .num x => toString x
  | .bool b => govBool b
  | .str s => s
  | .null => "<nil>"

/-- Source `Version` of the earlier revision (`database/ksql/ksql.go`): two
queries (latest rowtime from the derived table, then the matching event from
the stream), decoding column 3 as the version and column 4 as the dirty
flag.  Unlike the final revision, a query or decode failure is returned to
the caller as an error. -/
def Early.Version (e : Engine) (s : Ksql) : GoResult (Int × Bool) × Trace :=
  if s.FirstRun then (.ok (-1, false), [])
  else
    match Ksql.runQuery e s LatestSchemaRowTimeSQL with
    | (.err m, t) => (.err m, t)
    | (.ok resp, t) =>
        match responseBodyMigrationResult e resp with
        | none => (.err "json unmarshal error", t)
        | some latestTimeRows =>
            match latestTimeRows.Row.Columns.head? with
            | none => (.crash "index out of range", t)
            | some rowtime =>
                match Ksql.runQuery e s
                    ("SELECT * FROM migrations WHERE rowtime = " ++ govFmt rowtime ++ " LIMIT 1;") with
                | (.err m, t2) => (.err m, t ++ t2)
                | (.ok resp2, t2) =>
                    match responseBodyMigrationResult e resp2 with
                    | none => (.err "json unmarshal error", t ++ t2)
                    | some rows =>
                        match rows.Row.Columns.get? 3, rows.Row.Columns.get? 4 with
                        | some (.num x), some (.bool b) => (.ok (x, b), t ++ t2)
                        | some (.num _), some _ => (.crash "interface conversion", t ++ t2)
                        | some (.num _), none => (.crash "index out of range", t ++ t2)
                        | some _, _ => (.crash "interface conversion", t ++ t2)
                        | none, _ => (.crash "index out of range", t ++ t2)

/-!
An engine model for the round-trip property.  The remote state is the
append-only `migrations` event log; the derived `schema_migrations` table
is, per `CreateMigrationTableSQL`,
`SELECT MAX(current_version) ... FROM migrations WHERE NOT is_dirty GROUP BY type`
(all events here have type `schema`).  `engineOf st` is the engine after
the log `st` has been fully materialized: every POST succeeds with status
200 and a body carrying the materialized view row, and `unmarshal` decodes
that body back into a one-column row.  The body encoding (`natEnc`/`natDec`)
is a stand-in for the engine's JSON row serialization, chosen so that
encode/decode invert each other provably.
-/

/-- Remote engine state: the appended `(current_version, is_dirty)` events,
in append order. -/
structure EngineState where
  events : List (Int × Bool)
deriving DecidableEq

/-- Materialization of one appended `VersionEvent`: the log grows by one
event (what the INSERT of `SetVersion` produces once materialized). -/
def appendEvent (st : EngineState) (v : Int) (d : Bool) : EngineState :=
  ⟨st.events ++ [(v, d)]⟩

/-- The versions of the non-dirty events (`WHERE NOT is_dirty`). -/
def cleanVersions (events : List (Int × Bool)) : List Int :=
  (events.filter (fun p => !p.2)).map Prod.fst

/-- `MAX` aggregation over a list of versions (`none` on an empty group). -/
def maxInt : List Int → Option Int
  | [] => none
  | x :: xs =>
      match maxInt xs with
      | none => some x
      | some m => some (max x m)

/-- The `current_version` column of the materialized `schema_migrations`
row: `MAX(current_version)` over the clean events. -/
def materializedVersion (st : EngineState) : Option Int :=
  maxInt (cleanVersions st.events)

/-- Body serialization of a row value (stand-in for the engine's JSON). -/
def natEnc (n : Nat) : String :=
  String.mk (List.replicate (n + 1) '1')

/-- Body deserialization inverse to `natEnc`; an empty body decodes to
nothing (no row). -/
def natDec (s : String) : Option Nat :=
  match s.data with
  | [] => none
  | l => if l.all (fun c => c = '1') then some (l.length - 1) else none

/-- Response body of the point query against the materialized view. -/
def viewBody (st : EngineState) : String :=
  match materializedVersion st with
  | some v => natEnc v.toNat
  | none => ""

/-- `json.Unmarshal` for the view body: a one-column row holding the
version number, or a decode failure on an empty/no-row body. -/
def viewUnmarshal (s : String) : Option MigrationResult :=
  (natDec s).map (fun n => ⟨⟨[JsonVal.num (Int.ofNat n)]⟩⟩)

/-- The engine once the log `st` is fully materialized: every request gets
a 200 response whose body is the materialized view row. -/
def engineOf (st : EngineState) : Engine :=
  { post := fun _ _ => .ok { statusCode := 200, status := "200 OK", body := viewBody st },
    unmarshal := viewUnmarshal }

/-- An engine whose transport always fails (unreachable host). -/
def downEngine : Engine :=
  { post := fun _ _ => .err "connection refused",
    unmarshal := fun _ => none }

/-- An engine that answers every request with the given response. -/
def constEngine (resp : Response) : Engine :=
  { post := fun _ _ => .ok resp,
    unmarshal := fun _ => none }

/-- A connected driver past its first run (concrete state for witnesses). -/
def sampleDriver : Ksql :=
  { Url := "ksql://h",
    HttpUrl := "http://h",
    CurrentVersion := -1,
    MigrationSequence := [],
    LastRunMigration := none,
    IsDirty := false,
    FirstRun := false }

/-- A freshly opened driver still on its first run. -/
def freshDriver : Ksql :=
  { sampleDriver with FirstRun := true }

/-- The zero-value `&Ksql{}` registered with `database.Register`: the
receiver of the `Open` method. -/
def zeroDriver : Ksql :=
  { Url := "",
    HttpUrl := "",
    CurrentVersion := 0,
    MigrationSequence := [],
    LastRunMigration := none,
    IsDirty := false,
    FirstRun := false }

/-! Helper lemmas. -/

theorem stringMk_data (s : String) : String.mk s.data = s := by
  cases s
  rfl

theorem dropWhile_nl_eq_self (l : List Char) (h : ∀ c ∈ l, c ≠ '\n') :
    l.dropWhile (fun c => c = '\n') = l := by
  cases l with
  | nil => rfl
  | cons a as =>
      have ha : a ≠ '\n' := h a (List.mem_cons_self a as)
      simp [List.dropWhile_cons, ha]

theorem trimNewlines_eq_self (l : List Char) (h : ∀ c ∈ l, c ≠ '\n') :
    trimNewlines l = l := by
  unfold trimNewlines
  rw [dropWhile_nl_eq_self l h,
    dropWhile_nl_eq_self l.reverse (fun c hc => h c (List.mem_reverse.mp hc)),
    List.reverse_reverse]

theorem splitLines_eq_single (l : List Char) (h : ∀ c ∈ l, c ≠ '\n') :
    splitLines l = [l] := by
  induction l with
  | nil => rfl
  | cons a as ih =>
      have ha : a ≠ '\n' := h a (List.mem_cons_self a as)
      have has : ∀ c ∈ as, c ≠ '\n' := fun c hc => h c (List.mem_cons_of_mem a hc)
      simp [splitLines, ih has, ha]

theorem firstLineOf_eq_self (s : String) (h : ∀ c ∈ s.data, c ≠ '\n') :
    firstLineOf s = s := by
  unfold firstLineOf
  rw [trimNewlines_eq_self s.data h, splitLines_eq_single s.data h]
  simp [stringMk_data]

theorem natEnc_no_newline (n : Nat) : ∀ c ∈ (natEnc n).data, c ≠ '\n' := by
  intro c hc
  have : c = '1' := List.eq_of_mem_replicate hc
  simp [this]

theorem natDec_natEnc (n : Nat) : natDec (natEnc n) = some n := by
  have hall : ∀ m, (List.replicate m ('1' : Char)).all (fun c => c = '1') = true := by
    intro m
    rw [List.all_eq_true]
    intro c hc
    simp [List.eq_of_mem_replicate hc]
  show natDec ⟨List.replicate (n + 1) '1'⟩ = some n
  rw [List.replicate_succ]
  simp only [natDec]
  rw [← List.replicate_succ]
  simp [hall]

theorem maxInt_append_top (l : List Int) (v : Int) (h : ∀ y ∈ l, y ≤ v) :
    maxInt (l ++ [v]) = some v := by
  induction l with
  | nil => rfl
  | cons x xs ih =>
      have hx : x ≤ v := h x (List.mem_cons_self x xs)
      have hxs : ∀ y ∈ xs, y ≤ v := fun y hy => h y (List.mem_cons_of_mem x hy)
      simp only [List.cons_append, List.append_eq, maxInt, ih hxs]
      rw [max_eq_right hx]

theorem cleanVersions_append_clean (l : List (Int × Bool)) (v : Int) :
    cleanVersions (l ++ [(v, false)]) = cleanVersions l ++ [v] := by
  unfold cleanVersions
  simp [List.filter_append]

theorem mem_cleanVersions (l : List (Int × Bool)) (y : Int) (hy : y ∈ cleanVersions l) :
    ∃ p ∈ l, p.2 = false ∧ p.1 = y := by
  unfold cleanVersions at hy
  simp only [List.mem_map, List.mem_filter, Bool.not_eq_true'] at hy
  obtain ⟨p, ⟨hpl, hpd⟩, hpy⟩ := hy
  exact ⟨p, hpl, hpd, hpy⟩

theorem materializedVersion_append (st : EngineState) (v : Int)
    (h : ∀ p ∈ st.events, p.2 = false → p.1 ≤ v) :
    materializedVersion (appendEvent st v false) = some v := by
  unfold materializedVersion appendEvent
  rw [cleanVersions_append_clean]
  apply maxInt_append_top
  intro y hy
  obtain ⟨p, hpl, hpd, hpy⟩ := mem_cleanVersions st.events y hy
  rw [← hpy]
  exact h p hpl hpd

theorem run_state (e : Engine) (s : Ksql) (m : String) :
    (Ksql.Run e s m).1 =
      { s with LastRunMigration := some m,
               MigrationSequence := s.MigrationSequence ++ [m] } := by
  unfold Ksql.Run Ksql.runKsql doQuery
  dsimp only
  split <;> first | rfl | (split <;> rfl)

/-- C1 counterexample: the round trip fails for dirty = true.  On a fresh
log, `set_version(7, true)` succeeds, but after the engine materializes the
append the dirty event is excluded from the view (`WHERE NOT is_dirty`), so
`get_version()` on a non-first-run driver returns `(-1, false)`, not
`(7, true)`. -/
theorem c1_roundtrip_counterexample :
    (Ksql.SetVersion (engineOf ⟨[]⟩) sampleDriver 7 true).2.1 = .ok () ∧
    (Ksql.Version (engineOf (appendEvent ⟨[]⟩ 7 true)) sampleDriver).1 = .ok (-1, false) ∧
    (Ksql.Version (engineOf (appendEvent ⟨[]⟩ 7 true)) sampleDriver).1 ≠ .ok (7, true) := by
  refine ⟨?_, ?_, ?_⟩ <;> decide

/-- C1 (amended): for dirty = false the round trip holds, provided no clean
event with a larger version is already in the log: for every v ≥ 0,
`set_version(v, false)` returns success and updates the mirror, and after
the engine materializes the append, `get_version()` on a non-first-run
driver returns `(v, false)`.  (For dirty = true the round trip fails: the
view excludes dirty events and the read-back hardcodes dirty = false.) -/
theorem c1_roundtrip_amended (st : EngineState) (s : Ksql) (v : Int)
    (hfr : s.FirstRun = false) (hv : 0 ≤ v)
    (hmax : ∀ p ∈ st.events, p.2 = false → p.1 ≤ v) :
    (Ksql.SetVersion (engineOf st) s v false).2.1 = .ok () ∧
    (Ksql.SetVersion (engineOf st) s v false).1.CurrentVersion = v ∧
    (Ksql.Version (engineOf (appendEvent st v false)) s).1 = .ok (v, false) := by
  refine ⟨?_, ?_, ?_⟩
  · simp [Ksql.SetVersion, Ksql.runKsql, doQuery, engineOf, hv]
  · simp [Ksql.SetVersion, Ksql.runKsql, doQuery, engineOf, hv]
  · have hmv : materializedVersion (appendEvent st v false) = some v :=
      materializedVersion_append st v hmax
    have hbody : viewBody (appendEvent st v false) = natEnc v.toNat := by
      simp [viewBody, hmv]
    have hdec : viewUnmarshal (firstLineOf (natEnc v.toNat)) =
        some ⟨⟨[JsonVal.num (Int.ofNat v.toNat)]⟩⟩ := by
      rw [firstLineOf_eq_self _ (natEnc_no_newline v.toNat)]
      simp [viewUnmarshal, natDec_natEnc]
    have htn : Int.ofNat v.toNat = v := Int.toNat_of_nonneg hv
    simp [Ksql.Version, hfr, Ksql.getLatestMigration, Ksql.runQuery, doQuery,
      engineOf, responseBodyMigrationResult, resposeBodyText, hbody, hdec, htn]
    exact hv

/-- C1 witness: the amended round trip at v = 7 on a fresh log. -/
theorem c1_roundtrip_witness :
    sampleDriver.FirstRun = false ∧ (0 : Int) ≤ 7 ∧
    (Ksql.Version (engineOf (appendEvent ⟨[]⟩ 7 false)) sampleDriver).1 = .ok (7, false) :=
  ⟨by decide, by decide,
    (c1_roundtrip_amended ⟨[]⟩ sampleDriver 7 (by decide) (by decide)
      (fun p hp => absurd hp (List.not_mem_nil p))).2.2⟩

/-- C2: `SetVersion` never returns an error, and when the transport for the
append fails the error is swallowed (success is returned) and the local
mirror fields — the whole driver state — are left unchanged. -/
theorem c2_setversion_swallows (e : Engine) (s : Ksql) (v : Int) (d : Bool) :
    (Ksql.SetVersion e s v d).2.1 = .ok () ∧
    (∀ m, e.post (s.HttpUrl ++ "/ksql") (formatQuery (insertQuery v d)) = .err m →
      (Ksql.SetVersion e s v d).1 = s) := by
  constructor
  · unfold Ksql.SetVersion Ksql.runKsql doQuery
    split
    · split <;> rfl
    · rfl
  · intro m hm
    unfold Ksql.SetVersion Ksql.runKsql doQuery
    split
    · simp [hm]
    · rfl

/-- C2 witness: a failing append at `set_version(7, true)` against an
unreachable engine still reports success and keeps the state. -/
theorem c2_setversion_witness :
    downEngine.post (sampleDriver.HttpUrl ++ "/ksql") (formatQuery (insertQuery 7 true)) =
      .err "connection refused" ∧
    (Ksql.SetVersion downEngine sampleDriver 7 true).2.1 = .ok () ∧
    (Ksql.SetVersion downEngine sampleDriver 7 true).1 = sampleDriver :=
  ⟨rfl, (c2_setversion_swallows downEngine sampleDriver 7 true).1,
    (c2_setversion_swallows downEngine sampleDriver 7 true).2 "connection refused" rfl⟩

/-- C3 counterexample: in the final revision, when the latest-version query
fails (unreachable engine), `getLatestMigration` reports the error but
`Version` swallows it and returns `(-1, false)` with a nil error — it does
not surface the failure to the caller. -/
theorem c3_version_error_counterexample :
    (Ksql.getLatestMigration downEngine sampleDriver).1 = .err "connection refused" ∧
    (Ksql.Version downEngine sampleDriver).1 = .ok (-1, false) := by
  refine ⟨?_, ?_⟩ <;> decide

/-- Helper for C3: the final revision's `Version` turns any error from
`getLatestMigration` into a successful `(-1, false)`. -/
theorem version_swallows_error (e : Engine) (s : Ksql) (m : String)
    (hfr : s.FirstRun = false) (hm : (Ksql.getLatestMigration e s).1 = .err m) :
    (Ksql.Version e s).1 = .ok (-1, false) := by
  unfold Ksql.Version
  rw [hfr]
  rcases hg : Ksql.getLatestMigration e s with ⟨r, t⟩
  rw [hg] at hm
  simp only at hm
  subst hm
  simp

/-- C3 (amended): on a non-first-run driver, a latest-version query or
decode failure is swallowed by the final revision's `get_version()` — it
returns `(-1, false)` with no error — while the earlier revision's
`get_version()` surfaces the failure as an error. -/
theorem c3_version_error_amended (e : Engine) (s : Ksql) (hfr : s.FirstRun = false) :
    (∀ m, (Ksql.getLatestMigration e s).1 = .err m →
      (Ksql.Version e s).1 = .ok (-1, false)) ∧
    (∀ m, e.post (s.HttpUrl ++ "/query") (formatQuery LatestSchemaRowTimeSQL) = .err m →
      (Early.Version e s).1 = .err m) ∧
    (∀ resp, e.post (s.HttpUrl ++ "/query") (formatQuery LatestSchemaRowTimeSQL) = .ok resp →
      responseBodyMigrationResult e resp = none →
      (Early.Version e s).1 = .err "json unmarshal error") := by
  refine ⟨?_, ?_, ?_⟩
  · intro m hm
    exact version_swallows_error e s m hfr hm
  · intro m hm
    simp [Early.Version, hfr, Ksql.runQuery, doQuery, hm]
  · intro resp h1 h2
    simp [Early.Version, hfr, Ksql.runQuery, doQuery, h1, h2]

/-- C3 witness: all three conjuncts of the amended claim — the final
revision swallowing the failure at an unreachable engine, and the earlier
revision surfacing both a transport failure and a decode failure. -/
theorem c3_version_error_witness :
    sampleDriver.FirstRun = false ∧
    (Ksql.Version downEngine sampleDriver).1 = .ok (-1, false) ∧
    (Early.Version downEngine sampleDriver).1 = .err "connection refused" ∧
    (Early.Version (constEngine ⟨200, "200 OK", "junk"⟩) sampleDriver).1 =
      .err "json unmarshal error" :=
  ⟨rfl,
    (c3_version_error_amended downEngine sampleDriver rfl).1 "connection refused" (by decide),
    (c3_version_error_amended downEngine sampleDriver rfl).2.1 "connection refused" rfl,
    (c3_version_error_amended (constEngine ⟨200, "200 OK", "junk"⟩) sampleDriver rfl).2.2
      ⟨200, "200 OK", "junk"⟩ rfl rfl⟩

/-- C4 counterexample: a bootstrap run that finds no version table and
creates the stream/table pair (three statements issued: listing, stream
creation, table creation) completes successfully yet leaves `FirstRun`
still `true` — the creation path never sets it to `false`. -/
theorem c4_bootstrap_counterexample :
    (Ksql.ensureVersionTable (constEngine ⟨200, "200 OK", "no tables here"⟩) freshDriver).2.1 =
      .ok () ∧
    ((Ksql.ensureVersionTable (constEngine ⟨200, "200 OK", "no tables here"⟩) freshDriver).2.2).length = 3 ∧
    (Ksql.ensureVersionTable (constEngine ⟨200, "200 OK", "no tables here"⟩) freshDriver).1.FirstRun = true := by
  refine ⟨?_, ?_, ?_⟩ <;> decide

/-- C4 (amended): a bootstrap run that observes the version table in the
listing sets `FirstRun` to `false` and issues only the listing statement
(so a second bootstrap against the same target issues no creation
statements); a run that does not observe it leaves the driver state — in
particular `FirstRun` — unchanged; and no bootstrap run ever resets
`FirstRun` from `false` back to `true`. -/
theorem c4_bootstrap_amended (e : Engine) (s : Ksql) :
    (∀ resp, e.post (s.HttpUrl ++ "/ksql") (formatQuery "LIST TABLES;") = .ok resp →
      containsSubstring (strToLower (resposeBodyText resp)) "schema_migrations" = true →
      Ksql.ensureVersionTable e s =
        ({ s with FirstRun := false }, .ok (),
          [⟨s.HttpUrl ++ "/ksql", formatQuery "LIST TABLES;"⟩])) ∧
    (∀ resp, e.post (s.HttpUrl ++ "/ksql") (formatQuery "LIST TABLES;") = .ok resp →
      containsSubstring (strToLower (resposeBodyText resp)) "schema_migrations" = false →
      (Ksql.ensureVersionTable e s).1 = s) ∧
    ((Ksql.ensureVersionTable e s).1.FirstRun = true → s.FirstRun = true) := by
  refine ⟨?_, ?_, ?_⟩
  · intro resp h1 h2
    simp [Ksql.ensureVersionTable, Ksql.runKsql, doQuery, h1, h2]
  · intro resp h1 h2
    simp only [Ksql.ensureVersionTable, Ksql.runKsql, doQuery, h1]
    rw [h2]
    simp only [Bool.false_eq_true, if_false]
    split <;> first | rfl | (split <;> rfl)
  · unfold Ksql.ensureVersionTable Ksql.runKsql doQuery
    dsimp only
    split
    · exact fun h => h
    · split
      · intro h
        simp at h
      · split <;> first | exact fun h => h | (split <;> exact fun h => h)

/-- C4 witness: observing the table in the listing sets `FirstRun := false`
and issues only the listing statement. -/
theorem c4_bootstrap_witness :
    (constEngine ⟨200, "200 OK", "schema_migrations"⟩).post
        (sampleDriver.HttpUrl ++ "/ksql") (formatQuery "LIST TABLES;") =
      .ok ⟨200, "200 OK", "schema_migrations"⟩ ∧
    containsSubstring (strToLower (resposeBodyText ⟨200, "200 OK", "schema_migrations"⟩))
        "schema_migrations" = true ∧
    Ksql.ensureVersionTable (constEngine ⟨200, "200 OK", "schema_migrations"⟩) sampleDriver =
      ({ sampleDriver with FirstRun := false }, .ok (),
        [⟨sampleDriver.HttpUrl ++ "/ksql", formatQuery "LIST TABLES;"⟩]) :=
  ⟨rfl, by decide,
    (c4_bootstrap_amended (constEngine ⟨200, "200 OK", "schema_migrations"⟩) sampleDriver).1
      ⟨200, "200 OK", "schema_migrations"⟩ rfl (by decide)⟩

/-- C5: on a first-run driver, `get_version()` returns `(-1, false)` with no
error and issues no query at all (the trace is empty). -/
theorem c5_firstrun_fastpath (e : Engine) (s : Ksql) (h : s.FirstRun = true) :
    Ksql.Version e s = (.ok (-1, false), []) := by
  simp [Ksql.Version, h]

/-- C5 witness: the fast path on a freshly bootstrapped driver, even with
the engine unreachable. -/
theorem c5_firstrun_fastpath_witness :
    freshDriver.FirstRun = true ∧
    Ksql.Version downEngine freshDriver = (.ok (-1, false), []) :=
  ⟨rfl, c5_firstrun_fastpath downEngine freshDriver rfl⟩

/-- C6: `set_version(v, d)` with `v < 0` is a no-op: the driver state is
returned unchanged, no request is issued (empty trace), and the result is
success. -/
theorem c6_negative_noop (e : Engine) (s : Ksql) (v : Int) (d : Bool) (h : v < 0) :
    Ksql.SetVersion e s v d = (s, .ok (), []) := by
  have hn : ¬ (0 ≤ v) := not_le.mpr h
  simp [Ksql.SetVersion, hn]

/-- C6 witness: `set_version(-1, true)` is a no-op. -/
theorem c6_negative_noop_witness :
    (-1 : Int) < 0 ∧
    Ksql.SetVersion downEngine sampleDriver (-1) true = (sampleDriver, .ok (), []) :=
  ⟨by decide, c6_negative_noop downEngine sampleDriver (-1) true (by decide)⟩

/-- C7: starting from a driver with an empty `MigrationSequence` (as built
by `Open`), `run("A")`, `run("B")`, `drop()` leaves `MigrationSequence`
equal to `["A", "B", "DROP"]` in that order, whatever the engine answers
(the statement is recorded before it is submitted). -/
theorem c7_sequence (e : Engine) (s : Ksql) (a b : String)
    (h : s.MigrationSequence = []) :
    ((Ksql.Drop (Ksql.Run e (Ksql.Run e s a).1 b).1).1).MigrationSequence =
      [a, b, "DROP"] := by
  simp [run_state, Ksql.Drop, h]

/-- C7 witness: the sequence `["A", "B", "DROP"]` on the sample driver. -/
theorem c7_sequence_witness :
    sampleDriver.MigrationSequence = [] ∧
    ((Ksql.Drop (Ksql.Run downEngine (Ksql.Run downEngine sampleDriver "A").1 "B").1).1).MigrationSequence =
      ["A", "B", "DROP"] :=
  ⟨rfl, c7_sequence downEngine sampleDriver "A" "B" rfl⟩

/-- C8 counterexample: a 201 response is a 2xx status, yet `Run` treats it
as a failure — the check is `StatusCode != 200`, not non-2xx. -/
theorem c8_run_status_counterexample :
    (Ksql.Run (constEngine ⟨201, "201 Created", "accepted"⟩) sampleDriver "A").2.1 =
      .err "Unexpected response code of 201 Created" ∧
    (Ksql.Run (constEngine ⟨201, "201 Created", "accepted"⟩) sampleDriver "A").2.1 ≠
      .ok () := by
  refine ⟨?_, ?_⟩ <;> decide

/-- C8 (amended): a response with status code other than exactly 200
(including other 2xx codes) makes `run` return the error
`"Unexpected response code of " ++ Status` — the Go status line, which
carries the numeric code; the response body is printed, not put into the
error — and `run` succeeds exactly on status code 200. -/
theorem c8_run_status_amended (e : Engine) (s : Ksql) (mig : String) (resp : Response)
    (h : e.post (s.HttpUrl ++ "/ksql") (formatQuery mig) = .ok resp) :
    (resp.statusCode ≠ 200 →
      (Ksql.Run e s mig).2.1 = .err ("Unexpected response code of " ++ resp.status)) ∧
    (resp.statusCode = 200 → (Ksql.Run e s mig).2.1 = .ok ()) := by
  constructor <;> intro hc <;> simp [Ksql.Run, Ksql.runKsql, doQuery, h, hc]

/-- C8 witness: a 404 response fails with its status line in the error; a
200 response succeeds. -/
theorem c8_run_status_witness :
    (Ksql.Run (constEngine ⟨404, "404 Not Found", "boom"⟩) sampleDriver "A").2.1 =
      .err "Unexpected response code of 404 Not Found" ∧
    (Ksql.Run (constEngine ⟨200, "200 OK", "fine"⟩) sampleDriver "A").2.1 = .ok () :=
  ⟨(c8_run_status_amended (constEngine ⟨404, "404 Not Found", "boom"⟩) sampleDriver "A"
      ⟨404, "404 Not Found", "boom"⟩ rfl).1 (by decide),
    (c8_run_status_amended (constEngine ⟨200, "200 OK", "fine"⟩) sampleDriver "A"
      ⟨200, "200 OK", "fine"⟩ rfl).2 rfl⟩

/-- C9 (code bug): when the engine is unreachable, `Open` on the registered
zero-value receiver fails with the message `"Cannot connect to KSQL at "`
followed by the receiver's empty `HttpUrl` — the attempted endpoint
(`http://example.com:8088`, derived from the given URL and stored in the
fresh driver `ks`) does not appear in the message, because the source
interpolates `s.HttpUrl` (the method receiver) instead of `ks.HttpUrl`. -/
theorem c9_open_error_endpoint :
    (Ksql.Open downEngine zeroDriver "ksql://example.com:8088").1 =
      .err "Cannot connect to KSQL at " ∧
    containsSubstring "Cannot connect to KSQL at " "example.com:8088" = false := by
  refine ⟨?_, ?_⟩ <;> decide

/-- Helper for C10: every successful return of `getLatestMigration` carries
`dirty = false` — the decoder reads only the version column. -/
theorem getLatestMigration_dirty_false (e : Engine) (s : Ksql) (v : Int) (d : Bool)
    (h : (Ksql.getLatestMigration e s).1 = .ok (v, d)) : d = false := by
  unfold Ksql.getLatestMigration at h
  repeat' split at h
  all_goals simp_all

/-- C10: on a non-first-run driver, whenever `get_version()` succeeds it
reports `dirty = false`, whatever the engine or the appended events. -/
theorem c10_version_ok_not_dirty (e : Engine) (s : Ksql) (v : Int) (d : Bool)
    (hfr : s.FirstRun = false) (h : (Ksql.Version e s).1 = .ok (v, d)) :
    d = false := by
  unfold Ksql.Version at h
  rw [hfr] at h
  simp only [Bool.false_eq_true, if_false] at h
  rcases hg : Ksql.getLatestMigration e s with ⟨r, t⟩
  rw [hg] at h
  cases r with
  | err m =>
      simp only [GoResult.ok.injEq, Prod.mk.injEq] at h
      exact h.2.symm
  | crash m => simp at h
  | ok a =>
      simp only [GoResult.ok.injEq] at h
      apply getLatestMigration_dirty_false e s v d
      rw [hg, h]

/-- C10 witness: a successful read-back (version 7) reports dirty = false. -/
theorem c10_version_ok_not_dirty_witness :
    sampleDriver.FirstRun = false ∧
    (Ksql.Version (engineOf ⟨[(7, false)]⟩) sampleDriver).1 = .ok (7, false) ∧
    false = false :=
  ⟨rfl, by decide,
    c10_version_ok_not_dirty (engineOf ⟨[(7, false)]⟩) sampleDriver 7 false rfl (by decide)⟩

end SolveMigrate
